import Mathlib

/-!
Verification of the pi-gadget UI shell against its specification.

The definitions below are a shallow embedding of the Python sources:
  * `src/ui_keyboard.py`  — the on-screen keyboard engine (`OnScreenKeyboard`),
  * `src/main.py`         — the options-menu / keyboard-confirm branches of the
                            main event loop and the filesystem helpers
                            (`create_folder_named`, `rename_entry`, delete branch),
  * `src/apps/loader.py`  — the hosted mini-app loader (`load_app`).

Python strings are modelled as Lean `String` (indexed by code points, as in
Python), Python ints that stay non-negative are modelled as `Nat`, and the
handful of places where the specification's arithmetic can go negative are
stated over `Int`.  Filesystem state is modelled as a characteristic function
`String → Bool` of the set of existing paths.
-/

namespace PiGadget

/-! ## Keyboard engine (src/ui_keyboard.py) -/

/-- The keyboard layout mode.  In the source this is the string field
`self.mode` with the three values `"letters_en"` / `"letters_ru"` /
`"num_sym"`; the spec calls these `LettersPrimary` / `LettersSecondary` /
`SymbolsNumbers`. -/
inductive KbLayout where
  | lettersEn
  | lettersRu
  | numSym
deriving DecidableEq, Repr

/-- State of `OnScreenKeyboard` (the fields set in `__init__`/`start`
that the engine logic reads and writes; the display handle and fonts are
rendering collaborators and carry no logic). -/
structure KBState where
  prompt : String
  text : String
  maxLen : Nat
  mode : KbLayout
  shift : Bool
  cursorRow : Nat
  cursorCol : Nat
deriving DecidableEq, Repr

/-- `self.letters_en_rows` — base English layout. -/
def lettersEnRows : List (List Char) :=
  ["qwertyuiop".toList, "asdfghjkl".toList, "zxcvbnm".toList]

/-- `self.letters_ru_rows` — base Russian layout. -/
def lettersRuRows : List (List Char) :=
  ["йцукенгшщз".toList, "фывапролд".toList, "ячсмитьбю".toList]

/-- `self.num_rows` — numbers/symbols layout (every entry is a
one-character string in the source). -/
def numRows : List (List Char) :=
  ["1234567890".toList, ['-', '_', '@', '.', ',', '?'], ['!', '?', ':', ';', '(', ')']]

/-- Python `str.upper()` restricted to single characters, covering the ASCII
and basic Cyrillic ranges (the only characters appearing in the layouts);
both ranges uppercase by subtracting 0x20. -/
def pyUpper (c : Char) : Char :=
  if ('a' ≤ c ∧ c ≤ 'z') ∨ ('а' ≤ c ∧ c ≤ 'я') then Char.ofNat (c.toNat - 32) else c

/-- Python `str.lower()` restricted to single characters (ASCII and basic
Cyrillic). -/
def pyLower (c : Char) : Char :=
  if ('A' ≤ c ∧ c ≤ 'Z') ∨ ('А' ≤ c ∧ c ≤ 'Я') then Char.ofNat (c.toNat + 32) else c

/-- Whether `self.mode.startswith("letters")` holds. -/
def lettersLayout : KbLayout → Bool
  | .lettersEn => true
  | .lettersRu => true
  | .numSym => false

/-- The per-character transform applied to main-row keys in
`_get_layout_rows`: `ch.upper() if self.shift else ch.lower()` in letter
modes, identity in `num_sym` mode. -/
def shiftChar (mode : KbLayout) (shift : Bool) (ch : Char) : Char :=
  if lettersLayout mode then (if shift then pyUpper ch else pyLower ch) else ch

/-- The base rows selected at the top of `_get_layout_rows`. -/
def baseRows : KbLayout → List (List Char)
  | .lettersEn => lettersEnRows
  | .lettersRu => lettersRuRows
  | .numSym => numRows

/-- The system-row mode-switch label: `"ABC"` in `num_sym` mode, `"123"`
otherwise. -/
def modeToggleLabel (mode : KbLayout) : String :=
  if mode = .numSym then "ABC" else "123"

/-- `_get_layout_rows` as a function of the two state fields it reads:
three main rows (case-transformed labels) followed by the fixed system row
`[mode_label, "Shift", "space", "⌫", "return"]`. -/
def gridRows (mode : KbLayout) (shift : Bool) : List (List String) :=
  (baseRows mode).map (fun row => row.map (fun ch => String.singleton (shiftChar mode shift ch)))
    ++ [[modeToggleLabel mode, "Shift", "space", "⌫", "return"]]

/-- `self._get_layout_rows()`. -/
def getLayoutRows (s : KBState) : List (List String) :=
  gridRows s.mode s.shift

/-- Length of row `r`, totalising Python's `len(rows[r])` (which would raise
`IndexError` out of range; every use in the source is in range, and the
theorems below only evaluate it there). -/
def rowLenAt (rows : List (List String)) (r : Nat) : Nat :=
  ((rows[r]?).map List.length).getD 0

/-- `self._get_current_key_label()`: `None` when the cursor is outside the
current grid, otherwise the label under the cursor.  The source's explicit
`cursor_row < 0` / `cursor_col < 0` guards are vacuous over `Nat` (the
engine never drives the cursor negative: all decrements are guarded). -/
def currentKeyLabel (s : KBState) : Option String :=
  ((getLayoutRows s)[s.cursorRow]?).bind (fun row => row[s.cursorCol]?)

/-- Joystick events consumed by `handle_event`. -/
inductive KEvent where
  | up
  | down
  | left
  | right
  | center
deriving DecidableEq, Repr

/-- Result signal of `handle_event`: `("redraw", None)` or `("done", text)`;
`(None, None)` is modelled by `Option.none` in the pair's first component. -/
inductive KbAction where
  | redraw
  | done (text : String)
deriving DecidableEq, Repr

/-- The guarded cursor moves of `handle_event`'s navigation block
(lines 105–115): no wraparound in any direction. -/
def navMove (s : KBState) (rows : List (List String)) (e : KEvent) : KBState :=
  match e with
  | .up => if 0 < s.cursorRow then { s with cursorRow := s.cursorRow - 1 } else s
  | .down =>
      if s.cursorRow < rows.length - 1 then { s with cursorRow := s.cursorRow + 1 } else s
  | .left => if 0 < s.cursorCol then { s with cursorCol := s.cursorCol - 1 } else s
  | .right =>
      if s.cursorCol < rowLenAt rows s.cursorRow - 1 then
        { s with cursorCol := s.cursorCol + 1 }
      else s
  | .center => s

/-- The final column clamp of the navigation block (lines 118–119):
`if self.cursor_col >= len(rows[self.cursor_row]): cursor_col = len - 1`. -/
def navClamp (s s1 : KBState) : KBState :=
  if rowLenAt (getLayoutRows s) s1.cursorRow ≤ s1.cursorCol then
    { s1 with cursorCol := rowLenAt (getLayoutRows s) s1.cursorRow - 1 }
  else s1

/-- The navigation block of `handle_event` (lines 104–121): guarded move,
then a clamp of the column into the (possibly shorter) current row. -/
def navStep (s : KBState) (e : KEvent) : KBState :=
  navClamp s (navMove s (getLayoutRows s) e)

/-- The `"123"`/`"ABC"` branch of `handle_event` (lines 144–153): flip
between `num_sym` and `letters_en`, then clamp the cursor row and column
into the new grid. -/
def toggleState (s : KBState) : KBState :=
  let s1 := { s with mode := if s.mode = .numSym then KbLayout.lettersEn else KbLayout.numSym }
  let rows := getLayoutRows s1
  let s2 := { s1 with cursorRow := min s1.cursorRow (rows.length - 1) }
  { s2 with cursorCol := min s2.cursorCol (rowLenAt rows s2.cursorRow - 1) }

/-- The `event == "CENTER"` block of `handle_event` (lines 124–164). -/
def handleCenter (s : KBState) : Option KbAction × KBState :=
  match currentKeyLabel s with
  | none => (none, s)
  | some label =>
    if label = "space" then
      (some .redraw, if s.text.length < s.maxLen then { s with text := s.text ++ " " } else s)
    else if label = "⌫" then
      -- `self.text = self.text[:-1]` — drop the final character
      (some .redraw, if s.text ≠ "" then { s with text := String.mk s.text.data.dropLast } else s)
    else if label = "return" then
      (some (.done s.text), s)
    else if label = "123" ∨ label = "ABC" then
      (some .redraw, toggleState s)
    else if label = "Shift" then
      (some .redraw, { s with shift := !s.shift })
    else if label.length = 1 ∧ s.text.length < s.maxLen then
      (some .redraw, { s with text := s.text ++ label })
    else
      (none, s)

/-- `handle_event`: navigation events always answer `redraw`; `CENTER`
dispatches on the key under the cursor; anything else is `(None, None)`. -/
def handleEvent (s : KBState) (e : KEvent) : Option KbAction × KBState :=
  match e with
  | .up | .down | .left | .right => (some .redraw, navStep s e)
  | .center => handleCenter s

/-- `cycle_language` (lines 80–90): `num_sym → letters_en`,
`letters_en → letters_ru`, `letters_ru → letters_en`. -/
def cycleLanguage (s : KBState) : KBState :=
  { s with
    mode :=
      match s.mode with
      | .numSym => KbLayout.lettersEn
      | .lettersEn => KbLayout.lettersRu
      | .lettersRu => KbLayout.lettersEn }

/-- `start(prompt, initial_text, max_len)` (lines 68–78).  Note the initial
text is **not** truncated to `max_len`. -/
def kstart (prompt initialText : String) (maxLen : Nat) : KBState :=
  { prompt := prompt, text := initialText, maxLen := maxLen,
    mode := .lettersEn, shift := false, cursorRow := 0, cursorCol := 0 }

/-- One step of a keyboard session as driven by `main.py`: either a joystick
event forwarded to `handle_event`, or a KEY1 press forwarded to
`cycle_language`. -/
inductive KbStep where
  | ev (e : KEvent)
  | cycleLang
deriving DecidableEq, Repr

/-- Effect of one session step on the keyboard state. -/
def sessionStep (s : KBState) (st : KbStep) : KBState :=
  match st with
  | .ev e => (handleEvent s e).2
  | .cycleLang => cycleLanguage s

/-- State reached after a sequence of session steps. -/
def runSteps (steps : List KbStep) (s : KBState) : KBState :=
  steps.foldl sessionStep s

/-- The cursor invariant from the spec: the cursor addresses a key of the
currently active grid. -/
def KInv (s : KBState) : Prop :=
  s.cursorRow < (getLayoutRows s).length ∧
    s.cursorCol < rowLenAt (getLayoutRows s) s.cursorRow

instance (s : KBState) : Decidable (KInv s) := by
  unfold KInv; infer_instance

/-- The trace refuting C1 as stated: switch to the secondary (Russian)
layout, walk to the last key of its third row (9 keys), then cycle back to
the primary layout whose third row has only 7 keys.  `cycle_language` does
not re-clamp the cursor, so the column bound is violated. -/
def c1Trace : List KbStep :=
  [KbStep.cycleLang, KbStep.ev KEvent.down, KbStep.ev KEvent.down] ++
    List.replicate 8 (KbStep.ev KEvent.right) ++ [KbStep.cycleLang]

/-- A keyboard state with the cursor row past the grid (unreachable through
the public API, but `handle_event` must still tolerate it). -/
def kbOutOfRange : KBState :=
  { kstart "Rename" "abc" 64 with cursorRow := 9 }

/-- A keyboard state in the secondary (Russian) letters mode with the
cursor on the mode-toggle key. -/
def kbRuToggle : KBState :=
  { kstart "Rename" "" 64 with mode := KbLayout.lettersRu, cursorRow := 3, cursorCol := 0 }

/-- A keyboard state in the primary letters mode with the cursor on the
mode-toggle key. -/
def kbEnToggle : KBState :=
  { kstart "Rename" "" 64 with cursorRow := 3, cursorCol := 0 }

/-! ## Filesystem actions and list-view state (src/main.py) -/

/-- Filesystem state, modelled as the characteristic function of the set of
existing paths (`os.path.exists`). -/
abbrev FS := String → Bool

/-- `os.path.join(a, b)` for a relative second component. -/
def pathJoin (a b : String) : String := a ++ "/" ++ b

/-- `os.path.dirname`: everything before the final path separator (empty
when there is none). -/
def pyDirname (p : String) : String :=
  String.intercalate "/" ((p.splitOn "/").dropLast)

/-- The characters stripped by Python `str.strip()` (ASCII whitespace; the
keyboard can only produce the plain space among these). -/
def pyIsSpace (c : Char) : Bool :=
  c = ' ' || c = '\t' || c = '\n' || c = '\r' || c = '\x0b' || c = '\x0c'

/-- Python `str.strip()`. -/
def pyStrip (s : String) : String :=
  String.mk (((s.data.dropWhile pyIsSpace).reverse.dropWhile pyIsSpace).reverse)

/-- Membership in the `allowed` character set of `sanitize_fs_name`. -/
def allowedFsChar (c : Char) : Bool :=
  ('a' ≤ c && c ≤ 'z') || ('A' ≤ c && c ≤ 'Z') || ('0' ≤ c && c ≤ '9') || c = '_' || c = '-'

/-- `sanitize_fs_name` (main.py lines 759–769): strip, replace spaces with
underscores, keep only the allowed characters. -/
def sanitizeFsName (name : String) : String :=
  let name := pyStrip name
  if name = "" then ""
  else String.mk ((name.data.map (fun c => if c = ' ' then '_' else c)).filter allowedFsChar)

/-- The candidate names probed by `create_folder_named`:
`base` for `i = 0`, otherwise `base_i`. -/
def candidateName (base : String) (i : Nat) : String :=
  if i = 0 then base else base ++ "_" ++ toString i

/-- The safe name used by `create_folder_named`: the sanitised stripped
name, with `"Folder"` substituted when sanitisation leaves nothing. -/
def createSafeName (d : String) : String :=
  let s := sanitizeFsName d
  if s = "" then "Folder" else s

/-- The probe loop of `create_folder_named` (lines 709–714): the first of
the 1000 candidate names whose path does not exist. -/
def firstFreeCreate (fs : FS) (dir safe : String) : Option String :=
  ((List.range 1000).map (candidateName safe)).find? (fun c => !fs (pathJoin dir c))

/-- `create_folder_named` (lines 696–739) as a filesystem transformer:
skip on an empty stripped name, give up when all 1000 candidates exist,
otherwise create the folder and its `.meta.json` sidecar. -/
def createFolderNamed (fs : FS) (dir name : String) : FS :=
  let d := pyStrip name
  if d = "" then fs
  else
    let safe := createSafeName d
    match firstFreeCreate fs dir safe with
    | none => fs
    | some c =>
      let newPath := pathJoin dir c
      fun q => q == newPath || q == pathJoin newPath ".meta.json" || fs q

/-- The `type` field of a menu entry dict. -/
inductive EntryType where
  | folder
  | app
deriving DecidableEq, Repr

/-- A menu entry dict (the fields `rename_entry`/`delete_entry` read). -/
structure FsEntry where
  path : String
  etype : EntryType
  displayName : String
deriving DecidableEq, Repr

/-- The folder-rename target chosen by `rename_entry` (lines 790–798):
`parent/safe` when free, else the first free `parent/safe_i` for
`i = 1..999`; when the whole loop fails, `new_path` keeps its initial
(existing) value `parent/safe`. -/
def renameTargetFolder (fs : FS) (parent safe : String) : String :=
  let base := pathJoin parent safe
  if fs base then
    match ((List.range 999).map (fun i => candidateName safe (i + 1))).find?
        (fun c => !fs (pathJoin parent c)) with
    | some c => pathJoin parent c
    | none => base
  else base

/-- The app-rename target chosen by `rename_entry` (lines 831–839), with
the `.app` suffix on every candidate. -/
def renameTargetApp (fs : FS) (parent safe : String) : String :=
  let base := pathJoin parent (safe ++ ".app")
  if fs base then
    match ((List.range 999).map (fun i => candidateName safe (i + 1) ++ ".app")).find?
        (fun c => !fs (pathJoin parent c)) with
    | some c => pathJoin parent c
    | none => base
  else base

/-- `rename_entry` (lines 772–862) as a filesystem transformer: skip on an
empty stripped or sanitised name, otherwise `os.rename` the entry's path to
the chosen target (folder renames also rewrite the `.meta.json` inside the
new path).  Paths are modelled shallowly: children of a renamed folder are
not tracked. -/
def renameEntry (fs : FS) (entry : FsEntry) (newName : String) : FS :=
  let parent := pyDirname entry.path
  let d := pyStrip newName
  if d = "" then fs
  else
    match entry.etype with
    | .folder =>
      let safe := sanitizeFsName d
      if safe = "" then fs
      else
        let newPath := renameTargetFolder fs parent safe
        fun q => q == newPath || q == pathJoin newPath ".meta.json" ||
          (q != entry.path && fs q)
    | .app =>
      let safe := sanitizeFsName d
      if safe = "" then fs
      else
        let newPath := renameTargetApp fs parent safe
        fun q => q == newPath || (q != entry.path && fs q)

/-- The selection/scroll clamp applied after every list reload
(main.py lines 1170–1172 and 1213–1215):
`if selected >= len: selected = max(0, len - 1); scroll = min(scroll,
selected)`.  Over `Nat`, `len - 1` is truncated subtraction, which agrees
with Python's `max(0, len - 1)`. -/
def clampAfterReload (n sel scroll : Nat) : Nat × Nat :=
  let sel' := if n ≤ sel then n - 1 else sel
  (sel', min scroll sel')

/-- The `"Delete"` branch of the options menu (lines 1165–1177): delete the
selected entry, reload the list (modelled as erasing the selected index),
and re-clamp selection and scroll.  With an empty list only the state
switch back to the list view happens. -/
def deleteBranch (entries : List String) (sel scroll : Nat) : List String × Nat × Nat :=
  if entries.isEmpty then (entries, sel, scroll)
  else
    let entries2 := entries.eraseIdx sel
    let p := clampAfterReload entries2.length sel scroll
    (entries2, p.1, p.2)

/-- The UI states relevant to the keyboard-confirm step. -/
inductive UITag where
  | listView
  | keyboardInput
deriving DecidableEq, Repr

/-- `keyboard_mode` in main.py: `KB_MODE_RENAME` / `KB_MODE_NEW_FOLDER`. -/
inductive KbPurpose where
  | rename
  | newFolder
deriving DecidableEq, Repr

/-- The KEY2 confirm branch of the keyboard state (main.py lines
1203–1220): apply the rename/create action, reload the entry list when a
current directory is set (re-clamping selection and scroll), and return to
the list view.  `load` abstracts `load_list_entries`. -/
def kbConfirmStep (load : FS → String → List FsEntry) (fs : FS) (curDir : Option String)
    (purpose : Option KbPurpose) (target : Option FsEntry)
    (entries : List FsEntry) (sel scroll : Nat) (text : String) :
    FS × List FsEntry × Nat × Nat × UITag :=
  let fs2 :=
    match purpose, target with
    | some .rename, some t => renameEntry fs t text
    | some .newFolder, _ =>
        match curDir with
        | some d => createFolderNamed fs d text
        | none => fs
    | _, _ => fs
  match curDir with
  | some d =>
    let es := load fs2 d
    let p := clampAfterReload es.length sel scroll
    (fs2, es, p.1, p.2, .listView)
  | none => (fs2, entries, sel, scroll, .listView)

/-! ## Hosted mini-app loader (src/apps/loader.py) -/

/-- Classification of a Python exception as caught by `load_app`: the first
constructor attempt catches only `TypeError`. -/
inductive PyErr where
  | typeError
  | other
deriving DecidableEq, Repr

instance {ε α : Type} [DecidableEq ε] [DecidableEq α] : DecidableEq (Except ε α) := fun a b =>
  match a, b with
  | .ok x, .ok y =>
    if h : x = y then isTrue (congrArg Except.ok h)
    else isFalse (fun hh => h (Except.ok.inj hh))
  | .ok _, .error _ => isFalse (fun h => Except.noConfusion h)
  | .error _, .ok _ => isFalse (fun h => Except.noConfusion h)
  | .error x, .error y =>
    if h : x = y then isTrue (congrArg Except.error h)
    else isFalse (fun hh => h (Except.error.inj hh))

/-- Model of one attribute of the imported module that `dir(mod)` reports:
its name and the outcomes of calling it with three and with two
arguments (instances are abstracted to handles). -/
structure AppAttrModel where
  name : String
  ctor3 : Except PyErr Nat
  ctor2 : Except PyErr Nat
deriving DecidableEq, Repr

/-- An imported module: its attributes in `dir()` order. -/
abbrev AppModule := List AppAttrModel

/-- Module resolution (`importlib.import_module`): `none` models an import
failure. -/
abbrev ModuleUniverse := String → Option AppModule

/-- Python `str.endswith`, by code points. -/
def pyEndsWith (s suffix : String) : Bool :=
  suffix.data.isSuffixOf s.data

/-- The attribute scan of `load_app` (loader.py lines 15–19): the first
attribute whose name ends in `"App"`. -/
def findAppAttr (mod : AppModule) : Option AppAttrModel :=
  mod.find? (fun a => pyEndsWith a.name "App")

/-- `load_app` (loader.py lines 4–33).  `Except.error` models an exception
escaping `load_app`: the 3-argument constructor call is guarded only by
`except TypeError`, so any other exception from it propagates. -/
def loadApp (u : ModuleUniverse) (name : String) : Except PyErr (Option Nat) :=
  match u name with
  | none => .ok none
  | some mod =>
    match findAppAttr mod with
    | none => .ok none
    | some cls =>
      match cls.ctor3 with
      | .ok inst => .ok (some inst)
      | .error .typeError =>
        match cls.ctor2 with
        | .ok inst => .ok (some inst)
        | .error _ => .ok none
      | .error e => .error e

/-- A module universe holding one well-formed mini-app module. -/
def goodUniverse : ModuleUniverse :=
  fun n =>
    if n = "system.cpu_ram" then
      some [{ name := "CpuRamApp", ctor3 := .ok 7, ctor2 := .ok 7 }]
    else none

/-- A module universe whose app class raises a non-`TypeError` from its
3-argument constructor. -/
def badUniverse : ModuleUniverse :=
  fun n =>
    if n = "network.gps" then
      some [{ name := "GpsApp", ctor3 := .error .other, ctor2 := .ok 0 }]
    else none

/-- The everything-exists filesystem used to exhaust the rename probe
loop. -/
def fsAll : FS := fun _ => true

/-- A filesystem holding exactly one path. -/
def fsOne : FS := fun p => p == "menu/Docs"

/-! ### Basic grid facts -/

theorem gridRows_length (m : KbLayout) (sh : Bool) : (gridRows m sh).length = 4 := by
  cases m <;> cases sh <;> rfl

theorem rowLenAt_pos (m : KbLayout) (sh : Bool) (r : Nat) (hr : r < 4) :
    0 < rowLenAt (gridRows m sh) r := by
  cases m <;> cases sh <;> (interval_cases r <;> decide)

theorem rowLenAt_le_ten (m : KbLayout) (sh : Bool) (r : Nat) :
    rowLenAt (gridRows m sh) r ≤ 10 := by
  cases m <;> cases sh <;>
    (rcases r with _ | _ | _ | _ | r
     · decide
     · decide
     · decide
     · decide
     · simp [rowLenAt, gridRows, baseRows, lettersEnRows, lettersRuRows, numRows])

theorem rowLenAt_eq (rows : List (List String)) (r : Nat) :
    rowLenAt rows r = ((rows.map List.length)[r]?).getD 0 := by
  simp [rowLenAt, List.getElem?_map]

theorem gridRows_rowLens (m : KbLayout) (b1 b2 : Bool) :
    (gridRows m b1).map List.length = (gridRows m b2).map List.length := by
  cases m <;> cases b1 <;> cases b2 <;> decide

theorem rowLenAt_shift (m : KbLayout) (b1 b2 : Bool) (r : Nat) :
    rowLenAt (gridRows m b1) r = rowLenAt (gridRows m b2) r := by
  rw [rowLenAt_eq, rowLenAt_eq, gridRows_rowLens m b1 b2]

/-! ### Cursor-invariant preservation lemmas (claim C1) -/

theorem navMove_fields (s : KBState) (rows : List (List String)) (e : KEvent) :
    (navMove s rows e).mode = s.mode ∧ (navMove s rows e).shift = s.shift ∧
      (navMove s rows e).text = s.text := by
  cases e <;> unfold navMove <;> (try split_ifs) <;> simp

theorem navMove_row_lt (s : KBState) (rows : List (List String)) (e : KEvent)
    (h4 : rows.length = 4) (hr : s.cursorRow < 4) :
    (navMove s rows e).cursorRow < 4 := by
  cases e <;> unfold navMove <;> (try split_ifs) <;> (try dsimp only) <;> omega

theorem navClamp_fields (s s1 : KBState) :
    (navClamp s s1).mode = s1.mode ∧ (navClamp s s1).shift = s1.shift ∧
      (navClamp s s1).cursorRow = s1.cursorRow ∧ (navClamp s s1).text = s1.text := by
  unfold navClamp
  split_ifs <;> exact ⟨rfl, rfl, rfl, rfl⟩

theorem kinv_navClamp (s s1 : KBState)
    (hm : s1.mode = s.mode) (hs : s1.shift = s.shift) (hrow : s1.cursorRow < 4) :
    KInv (navClamp s s1) := by
  have hpos : 0 < rowLenAt (getLayoutRows s) s1.cursorRow :=
    rowLenAt_pos s.mode s.shift s1.cursorRow hrow
  unfold navClamp
  split_ifs with hclamp
  · refine ⟨?_, ?_⟩
    · show s1.cursorRow < (gridRows s1.mode s1.shift).length
      rw [gridRows_length]
      exact hrow
    · show rowLenAt (getLayoutRows s) s1.cursorRow - 1 <
        rowLenAt (gridRows s1.mode s1.shift) s1.cursorRow
      rw [hm, hs]
      show rowLenAt (getLayoutRows s) s1.cursorRow - 1 <
        rowLenAt (getLayoutRows s) s1.cursorRow
      omega
  · refine ⟨?_, ?_⟩
    · show s1.cursorRow < (gridRows s1.mode s1.shift).length
      rw [gridRows_length]
      exact hrow
    · show s1.cursorCol < rowLenAt (gridRows s1.mode s1.shift) s1.cursorRow
      rw [hm, hs]
      show s1.cursorCol < rowLenAt (getLayoutRows s) s1.cursorRow
      omega

theorem kinv_navStep (s : KBState) (e : KEvent) (h : KInv s) : KInv (navStep s e) := by
  have hr4 : s.cursorRow < 4 := by
    have h1 := h.1
    rw [show getLayoutRows s = gridRows s.mode s.shift from rfl, gridRows_length] at h1
    exact h1
  exact kinv_navClamp s (navMove s (getLayoutRows s) e)
    (navMove_fields s (getLayoutRows s) e).1
    (navMove_fields s (getLayoutRows s) e).2.1
    (navMove_row_lt s (getLayoutRows s) e (gridRows_length s.mode s.shift) hr4)

theorem kinv_set_text (s : KBState) (t : String) (h : KInv s) :
    KInv { s with text := t } := h

theorem kinv_set_shift (s : KBState) (b : Bool) (h : KInv s) :
    KInv { s with shift := b } := by
  obtain ⟨hr, hc⟩ := h
  refine ⟨?_, ?_⟩
  · show s.cursorRow < (gridRows s.mode b).length
    rw [gridRows_length]
    rw [show getLayoutRows s = gridRows s.mode s.shift from rfl, gridRows_length] at hr
    exact hr
  · show s.cursorCol < rowLenAt (gridRows s.mode b) s.cursorRow
    rw [rowLenAt_shift s.mode b s.shift]
    exact hc

theorem toggleState_row_lt (s : KBState) : (toggleState s).cursorRow < 4 := by
  unfold toggleState
  dsimp only
  rw [show getLayoutRows { s with mode := if s.mode = KbLayout.numSym then KbLayout.lettersEn
      else KbLayout.numSym } = gridRows (if s.mode = KbLayout.numSym then KbLayout.lettersEn
      else KbLayout.numSym) s.shift from rfl, gridRows_length]
  omega

theorem kinv_toggleState (s : KBState) : KInv (toggleState s) := by
  refine ⟨?_, ?_⟩
  · show (toggleState s).cursorRow <
      (gridRows (toggleState s).mode (toggleState s).shift).length
    rw [gridRows_length]
    exact toggleState_row_lt s
  · have hpos : 0 < rowLenAt (gridRows (toggleState s).mode (toggleState s).shift)
        (toggleState s).cursorRow :=
      rowLenAt_pos _ _ _ (toggleState_row_lt s)
    have hcol : (toggleState s).cursorCol =
        min s.cursorCol
          (rowLenAt (gridRows (toggleState s).mode (toggleState s).shift)
            (toggleState s).cursorRow - 1) := rfl
    show (toggleState s).cursorCol <
      rowLenAt (gridRows (toggleState s).mode (toggleState s).shift) (toggleState s).cursorRow
    omega

theorem handleCenter_snd_cases (s : KBState) :
    (handleCenter s).2 = s ∨ (∃ t, (handleCenter s).2 = { s with text := t }) ∨
      (∃ b, (handleCenter s).2 = { s with shift := b }) ∨
      (handleCenter s).2 = toggleState s := by
  unfold handleCenter
  cases hl : currentKeyLabel s with
  | none => exact Or.inl rfl
  | some label =>
    dsimp only
    split_ifs <;>
      first
        | exact Or.inl rfl
        | exact Or.inr (Or.inl ⟨_, rfl⟩)
        | exact Or.inr (Or.inr (Or.inl ⟨_, rfl⟩))
        | exact Or.inr (Or.inr (Or.inr rfl))

theorem kinv_handleCenter (s : KBState) (h : KInv s) : KInv (handleCenter s).2 := by
  rcases handleCenter_snd_cases s with hc | ⟨t, hc⟩ | ⟨b, hc⟩ | hc <;> rw [hc]
  · exact h
  · exact kinv_set_text s t h
  · exact kinv_set_shift s b h
  · exact kinv_toggleState s

theorem kinv_sessionStep (s : KBState) (st : KbStep)
    (hst : st ≠ KbStep.cycleLang) (h : KInv s) : KInv (sessionStep s st) := by
  cases st with
  | cycleLang => exact absurd rfl hst
  | ev e =>
    cases e with
    | up => exact kinv_navStep s .up h
    | down => exact kinv_navStep s .down h
    | left => exact kinv_navStep s .left h
    | right => exact kinv_navStep s .right h
    | center => exact kinv_handleCenter s h

theorem navStep_row_lt (s : KBState) (e : KEvent) (hr4 : s.cursorRow < 4) :
    (navStep s e).cursorRow < 4 := by
  show (navClamp s (navMove s (getLayoutRows s) e)).cursorRow < 4
  rw [(navClamp_fields s (navMove s (getLayoutRows s) e)).2.2.1]
  exact navMove_row_lt s (getLayoutRows s) e (gridRows_length s.mode s.shift) hr4

theorem rowBound_handleCenter (s : KBState) (hr4 : s.cursorRow < 4) :
    (handleCenter s).2.cursorRow < 4 := by
  rcases handleCenter_snd_cases s with hc | ⟨t, hc⟩ | ⟨b, hc⟩ | hc <;> rw [hc]
  · exact hr4
  · exact hr4
  · exact hr4
  · exact toggleState_row_lt s

theorem rowBound_sessionStep (s : KBState) (st : KbStep) (hr4 : s.cursorRow < 4) :
    (sessionStep s st).cursorRow < 4 := by
  cases st with
  | cycleLang => exact hr4
  | ev e =>
    cases e with
    | center => exact rowBound_handleCenter s hr4
    | up => exact navStep_row_lt s .up hr4
    | down => exact navStep_row_lt s .down hr4
    | left => exact navStep_row_lt s .left hr4
    | right => exact navStep_row_lt s .right hr4

theorem runSteps_kinv (steps : List KbStep) (s : KBState) (h : KInv s)
    (hnc : ∀ st ∈ steps, st ≠ KbStep.cycleLang) : KInv (runSteps steps s) := by
  induction steps generalizing s with
  | nil => exact h
  | cons st rest ih =>
    exact ih _ (kinv_sessionStep s st (hnc st (by simp)) h)
      (fun x hx => hnc x (by simp [hx]))

theorem runSteps_rowBound (steps : List KbStep) (s : KBState) (hr4 : s.cursorRow < 4) :
    (runSteps steps s).cursorRow < 4 := by
  induction steps generalizing s with
  | nil => exact hr4
  | cons st rest ih => exact ih _ (rowBound_sessionStep s st hr4)

/-! ### C1: cursor invariant -/

/-- **C1 (amended)** — starting from any `start(...)` session, the row bound
holds after every sequence of steps, and the full cursor invariant
`0 ≤ row < rowCount ∧ 0 ≤ col < len(row)` holds after every sequence of
navigation events and CENTER activations (mode toggles included).  A
`cycle_language` call can break the column bound (see the counterexample),
so it is excluded from the second part. -/
theorem c1_cursor_invariant (p t : String) (m : Nat) (steps : List KbStep) :
    (runSteps steps (kstart p t m)).cursorRow <
        (getLayoutRows (runSteps steps (kstart p t m))).length ∧
      ((∀ st ∈ steps, st ≠ KbStep.cycleLang) → KInv (runSteps steps (kstart p t m))) := by
  constructor
  · have h := runSteps_rowBound steps (kstart p t m) (by show (0 : Nat) < 4; decide)
    have h4 : (getLayoutRows (runSteps steps (kstart p t m))).length = 4 :=
      gridRows_length (runSteps steps (kstart p t m)).mode (runSteps steps (kstart p t m)).shift
    omega
  · intro hnc
    refine runSteps_kinv steps (kstart p t m) ⟨?_, ?_⟩ hnc
    · show (0 : Nat) < (gridRows KbLayout.lettersEn false).length
      decide
    · show (0 : Nat) < rowLenAt (gridRows KbLayout.lettersEn false) 0
      decide

set_option maxRecDepth 4000 in
/-- Counterexample to C1 as stated: after `c1Trace` the cursor is at
`(2, 8)` while row 2 of the active grid has length 7. -/
theorem c1_cursor_invariant_counterexample :
    ¬ KInv (runSteps c1Trace (kstart "Rename" "" 64)) := by decide

/-- Witness for C1 at a concrete cycle-free trace. -/
theorem c1_cursor_invariant_witness :
    ((runSteps [KbStep.ev KEvent.down] (kstart "New folder" "" 64)).cursorRow <
        (getLayoutRows (runSteps [KbStep.ev KEvent.down] (kstart "New folder" "" 64))).length) ∧
      KInv (runSteps [KbStep.ev KEvent.down] (kstart "New folder" "" 64)) :=
  ⟨(c1_cursor_invariant "New folder" "" 64 [KbStep.ev KEvent.down]).1,
    (c1_cursor_invariant "New folder" "" 64 [KbStep.ev KEvent.down]).2 (by decide)⟩

/-! ### C2: length bound -/

theorem navStep_text (s : KBState) (e : KEvent) : (navStep s e).text = s.text := by
  show (navClamp s (navMove s (getLayoutRows s) e)).text = s.text
  rw [(navClamp_fields s (navMove s (getLayoutRows s) e)).2.2.2]
  exact (navMove_fields s (getLayoutRows s) e).2.2

theorem sessionStep_maxLen (s : KBState) (st : KbStep) :
    (sessionStep s st).maxLen = s.maxLen := by
  cases st with
  | cycleLang => rfl
  | ev e =>
    cases e with
    | center =>
      show (handleCenter s).2.maxLen = s.maxLen
      rcases handleCenter_snd_cases s with hc | ⟨t, hc⟩ | ⟨b, hc⟩ | hc <;> rw [hc]
      all_goals rfl
    | up | down | left | right =>
      show (navClamp s (navMove s (getLayoutRows s) _)).maxLen = s.maxLen
      unfold navClamp navMove
      split_ifs <;> rfl

theorem handleCenter_text_le (s : KBState) (h : s.text.length ≤ s.maxLen) :
    (handleCenter s).2.text.length ≤ s.maxLen := by
  unfold handleCenter
  cases hl : currentKeyLabel s with
  | none => exact h
  | some label =>
    dsimp only
    split_ifs <;> try exact h
    all_goals
      first
        | -- space appended under the bound
          (show (s.text ++ " ").length ≤ s.maxLen
           rw [String.length_append]
           have hsp : (" " : String).length = 1 := rfl
           omega)
        | -- backspace shrinks the text
          (show s.text.data.dropLast.length ≤ s.maxLen
           rw [List.length_dropLast, String.length_data]
           omega)
        | -- character appended under the bound
          (show (s.text ++ label).length ≤ s.maxLen
           rw [String.length_append]
           rename_i hchar
           obtain ⟨hl1, hl2⟩ := hchar
           omega)

theorem sessionStep_text_le (s : KBState) (st : KbStep) (h : s.text.length ≤ s.maxLen) :
    (sessionStep s st).text.length ≤ s.maxLen := by
  cases st with
  | cycleLang => exact h
  | ev e =>
    cases e with
    | center => exact handleCenter_text_le s h
    | up => rw [show (sessionStep s (KbStep.ev KEvent.up)).text = s.text from navStep_text s .up]; exact h
    | down => rw [show (sessionStep s (KbStep.ev KEvent.down)).text = s.text from navStep_text s .down]; exact h
    | left => rw [show (sessionStep s (KbStep.ev KEvent.left)).text = s.text from navStep_text s .left]; exact h
    | right => rw [show (sessionStep s (KbStep.ev KEvent.right)).text = s.text from navStep_text s .right]; exact h

theorem runSteps_len_inv (steps : List KbStep) (s : KBState) (m : Nat)
    (hm : s.maxLen = m) (h : s.text.length ≤ m) :
    (runSteps steps s).maxLen = m ∧ (runSteps steps s).text.length ≤ m := by
  induction steps generalizing s with
  | nil => exact ⟨hm, h⟩
  | cons st rest ih =>
    refine ih (sessionStep s st) ?_ ?_
    · rw [sessionStep_maxLen]
      exact hm
    · have h2 := sessionStep_text_le s st (by rw [hm]; exact h)
      rw [hm] at h2
      exact h2

/-- **C2 (amended)** — provided the initial text respects the bound
(`start` does not truncate it, see the counterexample), `len(text) ≤
max_length` holds after every step of the session; and an append activation
(space key or a single-character key) attempted when `len(text) =
max_length` leaves the text unchanged. -/
theorem c2_length_bound :
    (∀ (p t : String) (m : Nat) (steps : List KbStep), t.length ≤ m →
        (runSteps steps (kstart p t m)).text.length ≤ m) ∧
      (∀ (s : KBState) (l : String), currentKeyLabel s = some l →
        (l = "space" ∨ (l.length = 1 ∧ l ≠ "⌫")) → s.text.length = s.maxLen →
        (handleCenter s).2.text = s.text) := by
  constructor
  · intro p t m steps h
    exact (runSteps_len_inv steps (kstart p t m) m rfl h).2
  · intro s l hl hlab hfull
    unfold handleCenter
    rw [hl]
    dsimp only
    rcases hlab with rfl | ⟨h1, hbs⟩
    · rw [if_pos rfl, if_neg (by omega)]
    · have hsp : l ≠ "space" := fun h => absurd h1 (by subst h; decide)
      have hret : l ≠ "return" := fun h => absurd h1 (by subst h; decide)
      have h123 : l ≠ "123" := fun h => absurd h1 (by subst h; decide)
      have habc : l ≠ "ABC" := fun h => absurd h1 (by subst h; decide)
      have hsh : l ≠ "Shift" := fun h => absurd h1 (by subst h; decide)
      rw [if_neg hsp, if_neg hbs, if_neg hret, if_neg (by simp [h123, habc]),
        if_neg hsh, if_neg (by omega)]

/-- Counterexample to C2 as stated: `start("Rename", "abc", 2)` keeps the
three-character initial text, and the subsequent character-append
activation (CENTER on the `q` key) leaves it at length 3 > 2. -/
theorem c2_length_bound_counterexample :
    ¬ ((handleEvent (kstart "Rename" "abc" 2) .center).2.text.length ≤
        (kstart "Rename" "abc" 2).maxLen) := by decide

/-- Witness for C2: a bounded session stays bounded, and an append at the
bound is a no-op. -/
theorem c2_length_bound_witness :
    (runSteps [KbStep.ev KEvent.center] (kstart "Rename" "ab" 64)).text.length ≤ 64 ∧
      (handleCenter (kstart "Input" "ab" 2)).2.text = (kstart "Input" "ab" 2).text :=
  ⟨c2_length_bound.1 "Rename" "ab" 64 [KbStep.ev KEvent.center] (by decide),
    c2_length_bound.2 (kstart "Input" "ab" 2) "q" (by decide) (by decide) (by decide)⟩

/-! ### C4: mode toggle involution -/

theorem baseRows_length (m : KbLayout) : (baseRows m).length = 3 := by
  cases m <;> rfl

theorem label_singleton_of_row_lt3 (m : KbLayout) (sh : Bool) (r c : Nat) (l : String)
    (hr : r < 3) (hl : ((gridRows m sh)[r]?.bind (fun row => row[c]?)) = some l) :
    l.length = 1 := by
  unfold gridRows at hl
  rw [List.getElem?_append_left (by rw [List.length_map, baseRows_length]; omega),
    List.getElem?_map] at hl
  cases hb : (baseRows m)[r]? with
  | none => rw [hb] at hl; exact absurd hl (by simp)
  | some brow =>
    rw [hb] at hl
    simp only [Option.map_some', Option.some_bind, List.getElem?_map] at hl
    cases hc : brow[c]? with
    | none => rw [hc] at hl; exact absurd hl (by simp)
    | some ch =>
      rw [hc] at hl
      simp only [Option.map_some', Option.some.injEq] at hl
      rw [← hl]
      rfl

theorem sysRow_at_three (m : KbLayout) (sh : Bool) :
    (gridRows m sh)[3]? = some [modeToggleLabel m, "Shift", "space", "⌫", "return"] := by
  cases m <;> cases sh <;> rfl

/-- A key labelled `"123"` or `"ABC"` can only be the first key of the
system row: every main-row label is a single character. -/
theorem toggle_label_position (s : KBState) (l : String)
    (hl : currentKeyLabel s = some l) (ht : l = "123" ∨ l = "ABC") :
    s.cursorRow = 3 ∧ s.cursorCol = 0 := by
  have hlen3 : l.length = 3 := by rcases ht with rfl | rfl <;> rfl
  obtain ⟨p, t, ml, mode, sh, row, col⟩ := s
  unfold currentKeyLabel getLayoutRows at hl
  dsimp only at hl ⊢
  have hr4 : row < 4 := by
    cases hg : (gridRows mode sh)[row]? with
    | none => rw [hg] at hl; exact absurd hl (by simp)
    | some rv =>
      have hlt : row < (gridRows mode sh).length := by
        by_contra hge
        push_neg at hge
        rw [List.getElem?_eq_none hge] at hg
        exact absurd hg (by simp)
      rw [gridRows_length] at hlt
      exact hlt
  interval_cases row
  · have h1 := label_singleton_of_row_lt3 mode sh 0 col l (by omega) hl
    omega
  · have h1 := label_singleton_of_row_lt3 mode sh 1 col l (by omega) hl
    omega
  · have h1 := label_singleton_of_row_lt3 mode sh 2 col l (by omega) hl
    omega
  · rw [sysRow_at_three mode sh] at hl
    simp only [Option.some_bind] at hl
    have hc5 : col < 5 := by
      by_contra hge
      push_neg at hge
      rw [List.getElem?_eq_none (by simpa using hge)] at hl
      exact absurd hl (by simp)
    interval_cases col
    · exact ⟨rfl, rfl⟩
    · simp only [List.getElem?_cons_succ, List.getElem?_cons_zero, Option.some.injEq] at hl
      rw [← hl] at hlen3
      exact absurd hlen3 (by decide)
    · simp only [List.getElem?_cons_succ, List.getElem?_cons_zero, Option.some.injEq] at hl
      rw [← hl] at ht
      exact absurd ht (by decide)
    · simp only [List.getElem?_cons_succ, List.getElem?_cons_zero, Option.some.injEq] at hl
      rw [← hl] at hlen3
      exact absurd hlen3 (by decide)
    · simp only [List.getElem?_cons_succ, List.getElem?_cons_zero, Option.some.injEq] at hl
      rw [← hl] at hlen3
      exact absurd hlen3 (by decide)

theorem currentKeyLabel_at_toggle (s : KBState) (hr : s.cursorRow = 3) (hc : s.cursorCol = 0) :
    currentKeyLabel s = some (modeToggleLabel s.mode) := by
  unfold currentKeyLabel
  rw [hr, hc, show getLayoutRows s = gridRows s.mode s.shift from rfl,
    sysRow_at_three s.mode s.shift]
  rfl

theorem handleCenter_eq_toggle (s : KBState) (l : String)
    (hl : currentKeyLabel s = some l) (ht : l = "123" ∨ l = "ABC") :
    handleCenter s = (some KbAction.redraw, toggleState s) := by
  rcases ht with rfl | rfl <;>
    · unfold handleCenter
      rw [hl]
      dsimp only
      rw [if_neg (by decide), if_neg (by decide), if_neg (by decide), if_pos (by decide)]

theorem toggleState_cursor_at_toggle (s : KBState) (hr : s.cursorRow = 3) (hc : s.cursorCol = 0) :
    (toggleState s).cursorRow = 3 ∧ (toggleState s).cursorCol = 0 := by
  have h4 : (getLayoutRows { s with
      mode := if s.mode = KbLayout.numSym then KbLayout.lettersEn else KbLayout.numSym }).length
        = 4 :=
    gridRows_length _ _
  constructor
  · show min s.cursorRow ((getLayoutRows { s with
        mode := if s.mode = KbLayout.numSym then KbLayout.lettersEn
          else KbLayout.numSym }).length - 1) = 3
    omega
  · show min s.cursorCol _ = 0
    omega

/-- **C4 (amended)** — activating the mode-toggle key flips between
`SymbolsNumbers` and `LettersPrimary` (never the secondary letters mode),
keeps `text` and `shift`, and re-clamps the cursor; a second activation
returns to the original mode **provided** the original mode was
`LettersPrimary` or `SymbolsNumbers` (from `LettersSecondary` the pair of
toggles ends in `LettersPrimary`, see the counterexample). -/
theorem c4_mode_toggle :
    (∀ (s : KBState) (l : String), currentKeyLabel s = some l → (l = "123" ∨ l = "ABC") →
        (handleCenter s).2.mode =
            (if s.mode = KbLayout.numSym then KbLayout.lettersEn else KbLayout.numSym) ∧
          (handleCenter s).2.mode ≠ KbLayout.lettersRu ∧
          (handleCenter s).2.text = s.text ∧ (handleCenter s).2.shift = s.shift ∧
          KInv (handleCenter s).2) ∧
      (∀ (s : KBState) (l : String), currentKeyLabel s = some l → (l = "123" ∨ l = "ABC") →
        s.mode ≠ KbLayout.lettersRu →
        (handleCenter (handleCenter s).2).2.mode = s.mode ∧
          (handleCenter (handleCenter s).2).2.text = s.text ∧
          (handleCenter (handleCenter s).2).2.shift = s.shift ∧
          KInv (handleCenter (handleCenter s).2).2) := by
  constructor
  · intro s l hl ht
    rw [handleCenter_eq_toggle s l hl ht]
    dsimp only
    refine ⟨rfl, ?_, rfl, rfl, kinv_toggleState s⟩
    show (if s.mode = KbLayout.numSym then KbLayout.lettersEn else KbLayout.numSym) ≠
      KbLayout.lettersRu
    split_ifs <;> decide
  · intro s l hl ht hru
    obtain ⟨hr3, hc0⟩ := toggle_label_position s l hl ht
    rw [handleCenter_eq_toggle s l hl ht]
    dsimp only
    obtain ⟨hr3', hc0'⟩ := toggleState_cursor_at_toggle s hr3 hc0
    have hl1 := currentKeyLabel_at_toggle (toggleState s) hr3' hc0'
    have ht1 : modeToggleLabel (toggleState s).mode = "123" ∨
        modeToggleLabel (toggleState s).mode = "ABC" := by
      unfold modeToggleLabel
      split_ifs <;> simp
    rw [handleCenter_eq_toggle (toggleState s) _ hl1 ht1]
    dsimp only
    refine ⟨?_, rfl, rfl, kinv_toggleState (toggleState s)⟩
    show (if (if s.mode = KbLayout.numSym then KbLayout.lettersEn else KbLayout.numSym) =
        KbLayout.numSym then KbLayout.lettersEn else KbLayout.numSym) = s.mode
    cases hm : s.mode
    · rfl
    · exact absurd hm hru
    · rfl

/-- Counterexample to C4 as stated: from `letters_ru` the toggle goes to
`num_sym` and the second toggle lands on `letters_en`, not back on
`letters_ru`. -/
theorem c4_mode_toggle_counterexample :
    currentKeyLabel kbRuToggle = some "123" ∧
      (handleCenter (handleCenter kbRuToggle).2).2.mode ≠ kbRuToggle.mode := by decide

/-- Witness for C4 at a concrete primary-mode state. -/
theorem c4_mode_toggle_witness :
    ((handleCenter kbEnToggle).2.mode =
        (if kbEnToggle.mode = KbLayout.numSym then KbLayout.lettersEn else KbLayout.numSym) ∧
        (handleCenter kbEnToggle).2.mode ≠ KbLayout.lettersRu ∧
        (handleCenter kbEnToggle).2.text = kbEnToggle.text ∧
        (handleCenter kbEnToggle).2.shift = kbEnToggle.shift ∧
        KInv (handleCenter kbEnToggle).2) ∧
      ((handleCenter (handleCenter kbEnToggle).2).2.mode = kbEnToggle.mode ∧
        (handleCenter (handleCenter kbEnToggle).2).2.text = kbEnToggle.text ∧
        (handleCenter (handleCenter kbEnToggle).2).2.shift = kbEnToggle.shift ∧
        KInv (handleCenter (handleCenter kbEnToggle).2).2) :=
  ⟨c4_mode_toggle.1 kbEnToggle "123" (by decide) (by decide),
    c4_mode_toggle.2 kbEnToggle "123" (by decide) (by decide) (by decide)⟩

/-! ### C5: language cycle -/

/-- **C5** — `cycle_language()` maps `LettersPrimary ↦ LettersSecondary`,
`LettersSecondary ↦ LettersPrimary`, `SymbolsNumbers ↦ LettersPrimary`, and
leaves `shift` and `text` unchanged. -/
theorem c5_cycle_language (s : KBState) :
    (cycleLanguage s).mode =
        (match s.mode with
          | KbLayout.lettersEn => KbLayout.lettersRu
          | KbLayout.lettersRu => KbLayout.lettersEn
          | KbLayout.numSym => KbLayout.lettersEn) ∧
      (cycleLanguage s).shift = s.shift ∧ (cycleLanguage s).text = s.text := by
  cases s with
  | mk p t ml mode sh r c => cases mode <;> simp [cycleLanguage]

/-! ### C9: activation with an out-of-range cursor -/

/-- **C9** — when the cursor lies outside the active grid,
`handle_event("CENTER")` reads no key (`_get_current_key_label` returns
`None`), returns `(None, None)` and leaves the whole state unchanged. -/
theorem c9_out_of_range_center_noop (s : KBState)
    (h : (getLayoutRows s).length ≤ s.cursorRow ∨
          rowLenAt (getLayoutRows s) s.cursorRow ≤ s.cursorCol) :
    currentKeyLabel s = none ∧ handleEvent s .center = (none, s) := by
  have hl : currentKeyLabel s = none := by
    unfold currentKeyLabel
    rcases h with h | h
    · rw [List.getElem?_eq_none h]
      rfl
    · cases hrow : (getLayoutRows s)[s.cursorRow]? with
      | none => rfl
      | some row =>
        have hlen : rowLenAt (getLayoutRows s) s.cursorRow = row.length := by
          simp [rowLenAt, hrow]
        rw [hlen] at h
        simp [List.getElem?_eq_none h]
  exact ⟨hl, by simp [handleEvent, handleCenter, hl]⟩

/-- Witness for C9 at a concrete out-of-range state. -/
theorem c9_out_of_range_center_noop_witness :
    currentKeyLabel kbOutOfRange = none ∧
      handleEvent kbOutOfRange .center = (none, kbOutOfRange) :=
  c9_out_of_range_center_noop kbOutOfRange (Or.inl (by decide))

/-! ### C3: printable-character activation -/

/-- **C3** — an activation on a single-character key (not the backspace key)
appends that character when `len(text) < max_length` and signals `redraw`. -/
theorem c3_char_append (s : KBState) (l : String)
    (hl : currentKeyLabel s = some l) (h1 : l.length = 1) (hbs : l ≠ "⌫")
    (hlen : s.text.length < s.maxLen) :
    handleEvent s .center = (some KbAction.redraw, { s with text := s.text ++ l }) := by
  have hsp : l ≠ "space" := fun h => absurd h1 (by subst h; decide)
  have hret : l ≠ "return" := fun h => absurd h1 (by subst h; decide)
  have h123 : l ≠ "123" := fun h => absurd h1 (by subst h; decide)
  have habc : l ≠ "ABC" := fun h => absurd h1 (by subst h; decide)
  have hsh : l ≠ "Shift" := fun h => absurd h1 (by subst h; decide)
  unfold handleEvent handleCenter
  rw [hl]
  simp [hsp, hbs, hret, h123, habc, hsh, h1, hlen]

/-- Witness for C3: pressing CENTER on the `q` key of a fresh session. -/
theorem c3_char_append_witness :
    handleEvent (kstart "New folder" "" 64) .center =
      (some KbAction.redraw, { kstart "New folder" "" 64 with text := "q" }) := by
  simpa using
    c3_char_append (kstart "New folder" "" 64) "q" (by decide) (by decide) (by decide)
      (by decide)

/-! ### C6: selection clamp after list shrink -/

/-- **C6 (amended)** — deleting the last-selected entry of a non-empty list
yields a list one entry shorter with selection `max(0, N-2)` and scroll
`min(scroll, selected)`; after every reload the clamp computes
`selected = max(0, min(selected, len-1))` (the claim's plain
`min(selected, len-1)` is wrong for an empty reload, see the
counterexample). -/
theorem c6_delete_clamp :
    (∀ (entries : List String) (sel scroll : Nat), entries ≠ [] →
        sel + 1 = entries.length →
        (deleteBranch entries sel scroll).1.length + 1 = entries.length ∧
          ((deleteBranch entries sel scroll).2.1 : Int) = max 0 ((entries.length : Int) - 2) ∧
          (deleteBranch entries sel scroll).2.2 =
            min scroll (deleteBranch entries sel scroll).2.1) ∧
      (∀ n sel scroll : Nat,
        ((clampAfterReload n sel scroll).1 : Int) = max 0 (min (sel : Int) ((n : Int) - 1)) ∧
          (clampAfterReload n sel scroll).2 = min scroll (clampAfterReload n sel scroll).1) := by
  constructor
  · intro entries sel scroll hne hsel
    have hpos : 0 < entries.length := by
      cases entries with
      | nil => exact absurd rfl hne
      | cons a l => simp
    have hlen : (entries.eraseIdx sel).length = entries.length - 1 := by
      rw [List.length_eraseIdx entries sel, if_pos (by omega)]
    unfold deleteBranch
    rw [if_neg (by simpa [List.isEmpty_iff] using hne)]
    unfold clampAfterReload
    dsimp only
    rw [hlen, if_pos (by omega)]
    refine ⟨by omega, by omega, rfl⟩
  · intro n sel scroll
    refine ⟨?_, rfl⟩
    unfold clampAfterReload
    dsimp only
    split_ifs with h <;> omega

/-- Counterexample to C6's reload formula as stated: deleting the only
entry reloads an empty list and the code sets `selected = 0`, while
`min(selected, len(entries)-1)` would be `-1`. -/
theorem c6_delete_clamp_counterexample :
    ((deleteBranch ["Alpha"] 0 0).2.1 : Int) ≠
      min (0 : Int) (((deleteBranch ["Alpha"] 0 0).1.length : Int) - 1) := by decide

/-- Witness for C6 on a three-entry list with the last entry selected. -/
theorem c6_delete_clamp_witness :
    ((deleteBranch ["Alpha", "Beta", "Gamma"] 2 2).1.length + 1 =
        (["Alpha", "Beta", "Gamma"] : List String).length ∧
      ((deleteBranch ["Alpha", "Beta", "Gamma"] 2 2).2.1 : Int) =
        max 0 (((["Alpha", "Beta", "Gamma"] : List String).length : Int) - 2) ∧
      (deleteBranch ["Alpha", "Beta", "Gamma"] 2 2).2.2 =
        min 2 (deleteBranch ["Alpha", "Beta", "Gamma"] 2 2).2.1) ∧
      (((clampAfterReload 5 9 4).1 : Int) = max 0 (min (9 : Int) ((5 : Int) - 1)) ∧
        (clampAfterReload 5 9 4).2 = min 4 (clampAfterReload 5 9 4).1) :=
  ⟨c6_delete_clamp.1 ["Alpha", "Beta", "Gamma"] 2 2 (by decide) (by decide),
    c6_delete_clamp.2 5 9 4⟩

/-! ### C7: empty or whitespace-only name -/

/-- **C7** — confirming a create-folder or rename keyboard session whose
text strips to the empty string changes no filesystem state, reloads the
same entry list, and returns to the list view; no error is produced (the
model functions are total). -/
theorem c7_empty_name (fs : FS) (dir name : String) (e : FsEntry)
    (load : FS → String → List FsEntry) (purpose : Option KbPurpose)
    (target : Option FsEntry) (entries : List FsEntry) (sel scroll : Nat)
    (hstrip : pyStrip name = "") (hentries : entries = load fs dir) :
    createFolderNamed fs dir name = fs ∧
      renameEntry fs e name = fs ∧
      (kbConfirmStep load fs (some dir) purpose target entries sel scroll name).1 = fs ∧
      (kbConfirmStep load fs (some dir) purpose target entries sel scroll name).2.1 = entries ∧
      (kbConfirmStep load fs (some dir) purpose target entries sel scroll name).2.2.2.2 =
        UITag.listView := by
  have hcreate : createFolderNamed fs dir name = fs := by
    simp [createFolderNamed, hstrip]
  have hrenameAll : ∀ t : FsEntry, renameEntry fs t name = fs := fun t => by
    simp [renameEntry, hstrip]
  have hstep : kbConfirmStep load fs (some dir) purpose target entries sel scroll name =
      (fs, load fs dir, (clampAfterReload (load fs dir).length sel scroll).1,
        (clampAfterReload (load fs dir).length sel scroll).2, UITag.listView) := by
    unfold kbConfirmStep
    rcases purpose with _ | p
    · rfl
    · cases p with
      | rename =>
        rcases target with _ | t
        · rfl
        · dsimp only
          rw [hrenameAll t]
      | newFolder =>
        dsimp only
        rw [hcreate]
  exact ⟨hcreate, hrenameAll e, by rw [hstep], by rw [hstep, hentries], by rw [hstep]⟩

/-- Witness for C7: confirming a whitespace-only folder name over a
filesystem with one directory. -/
theorem c7_empty_name_witness :
    createFolderNamed fsOne "menu" "   " = fsOne ∧
      renameEntry fsOne ⟨"menu/Docs", EntryType.folder, "Docs"⟩ "   " = fsOne ∧
      (kbConfirmStep (fun _ _ => []) fsOne (some "menu") (some KbPurpose.newFolder)
          none [] 0 0 "   ").1 = fsOne ∧
      (kbConfirmStep (fun _ _ => []) fsOne (some "menu") (some KbPurpose.newFolder)
          none [] 0 0 "   ").2.1 = [] ∧
      (kbConfirmStep (fun _ _ => []) fsOne (some "menu") (some KbPurpose.newFolder)
          none [] 0 0 "   ").2.2.2.2 = UITag.listView :=
  c7_empty_name fsOne "menu" "   " ⟨"menu/Docs", EntryType.folder, "Docs"⟩
    (fun _ _ => []) (some KbPurpose.newFolder) none [] 0 0 (by decide) rfl

/-! ### C10: create/rename never overwrite -/

/-- **C10 (amended)** — `create_folder_named` only ever creates at a path
that did not exist, and gives up (leaving the filesystem unchanged) when
all 1000 candidates exist; `rename_entry`'s chosen target is free whenever
any of the 1000 candidate names is free.  When *all* candidates exist the
rename target stays at the existing base path, so the rename can overwrite
(see the counterexample). -/
theorem c10_no_overwrite :
    (∀ (fs : FS) (dir safe c : String), firstFreeCreate fs dir safe = some c →
        fs (pathJoin dir c) = false) ∧
      (∀ (fs : FS) (dir name : String),
        firstFreeCreate fs dir (createSafeName (pyStrip name)) = none →
        createFolderNamed fs dir name = fs) ∧
      (∀ (fs : FS) (parent safe : String),
        (∃ i, i < 1000 ∧ fs (pathJoin parent (candidateName safe i)) = false) →
        fs (renameTargetFolder fs parent safe) = false) ∧
      (∀ (fs : FS) (parent safe : String),
        (∃ i, i < 1000 ∧ fs (pathJoin parent (candidateName safe i ++ ".app")) = false) →
        fs (renameTargetApp fs parent safe) = false) := by
  refine ⟨?_, ?_, ?_, ?_⟩
  · intro fs dir safe c hfind
    have := List.find?_some hfind
    simpa using this
  · intro fs dir name hnone
    unfold createFolderNamed
    dsimp only
    split_ifs with hd
    · rfl
    · simp only [hnone]
  · intro fs parent safe hex
    obtain ⟨i, hi, hfree⟩ := hex
    unfold renameTargetFolder
    dsimp only
    by_cases hbase : fs (pathJoin parent safe) = true
    · rw [if_pos hbase]
      have hi0 : i ≠ 0 := by
        intro h0
        rw [h0, show candidateName safe 0 = safe from rfl] at hfree
        rw [hfree] at hbase
        exact absurd hbase (by decide)
      have hmem : candidateName safe i ∈
          (List.range 999).map (fun j => candidateName safe (j + 1)) :=
        List.mem_map.mpr ⟨i - 1, List.mem_range.mpr (by omega), by congr 1; omega⟩
      cases hfind : ((List.range 999).map (fun j => candidateName safe (j + 1))).find?
          (fun c => !fs (pathJoin parent c)) with
      | none =>
        rw [List.find?_eq_none] at hfind
        exact absurd hfree (by simpa using hfind (candidateName safe i) hmem)
      | some c =>
        have := List.find?_some hfind
        simpa using this
    · rw [if_neg hbase]
      simpa using hbase
  · intro fs parent safe hex
    obtain ⟨i, hi, hfree⟩ := hex
    unfold renameTargetApp
    dsimp only
    by_cases hbase : fs (pathJoin parent (safe ++ ".app")) = true
    · rw [if_pos hbase]
      have hi0 : i ≠ 0 := by
        intro h0
        rw [h0, show candidateName safe 0 = safe from rfl] at hfree
        rw [hfree] at hbase
        exact absurd hbase (by decide)
      have hmem : candidateName safe i ++ ".app" ∈
          (List.range 999).map (fun j => candidateName safe (j + 1) ++ ".app") :=
        List.mem_map.mpr ⟨i - 1, List.mem_range.mpr (by omega), by congr 1; congr 1; omega⟩
      cases hfind : ((List.range 999).map (fun j => candidateName safe (j + 1) ++ ".app")).find?
          (fun c => !fs (pathJoin parent c)) with
      | none =>
        rw [List.find?_eq_none] at hfind
        exact absurd hfree (by simpa using hfind (candidateName safe i ++ ".app") hmem)
      | some c =>
        have := List.find?_some hfind
        simpa using this
    · rw [if_neg hbase]
      simpa using hbase

/-- Counterexample to C10's headline as stated: when the base path and all
999 suffixed candidates exist, `rename_entry` keeps the existing base path
as its target, so the `os.rename` would replace an existing entry. -/
theorem c10_no_overwrite_counterexample :
    renameTargetApp fsAll "menu" "tool" = pathJoin "menu" ("tool" ++ ".app") ∧
      fsAll (pathJoin "menu" ("tool" ++ ".app")) = true := by
  constructor
  · unfold renameTargetApp
    dsimp only
    rw [if_pos (show fsAll (pathJoin "menu" ("tool" ++ ".app")) = true from rfl),
      show (((List.range 999).map (fun i => candidateName "tool" (i + 1) ++ ".app")).find?
          (fun c => !fsAll (pathJoin "menu" c))) = none from
        List.find?_eq_none.mpr (fun x _ => by simp [fsAll])]
  · rfl

set_option maxRecDepth 20000 in
/-- Witness for C10 over a one-entry filesystem (and the exhausted-probe
case of create). -/
theorem c10_no_overwrite_witness :
    fsOne (pathJoin "menu" "Docs_1") = false ∧
      createFolderNamed fsAll "menu" "tool" = fsAll ∧
      fsOne (renameTargetFolder fsOne "menu" "Docs") = false ∧
      fsOne (renameTargetApp fsOne "menu" "Docs") = false :=
  ⟨c10_no_overwrite.1 fsOne "menu" "Docs" "Docs_1" (by decide),
    c10_no_overwrite.2.1 fsAll "menu" "tool"
      (by
        unfold firstFreeCreate
        exact List.find?_eq_none.mpr (fun x _ => by simp [fsAll])),
    c10_no_overwrite.2.2.1 fsOne "menu" "Docs" ⟨1, by decide, by decide⟩,
    c10_no_overwrite.2.2.2 fsOne "menu" "Docs" ⟨1, by decide, by decide⟩⟩

/-! ### C8: mini-app loading degrades safely -/

/-- **C8 (amended)** — `load_app` instantiates the first `*App` attribute
with the 3-argument signature; a `TypeError` triggers the 2-argument
retry; a missing module, a missing `*App` attribute, or any failure of the
2-argument retry yields `None` with a logged warning; but a non-`TypeError`
exception from the 3-argument constructor propagates out of `load_app`
(see the counterexample). -/
theorem c8_loader (u : ModuleUniverse) (name : String) :
    (u name = none → loadApp u name = .ok none) ∧
      (∀ mod, u name = some mod → findAppAttr mod = none → loadApp u name = .ok none) ∧
      (∀ mod cls inst, u name = some mod → findAppAttr mod = some cls →
        cls.ctor3 = .ok inst → loadApp u name = .ok (some inst)) ∧
      (∀ mod cls inst, u name = some mod → findAppAttr mod = some cls →
        cls.ctor3 = .error .typeError → cls.ctor2 = .ok inst →
        loadApp u name = .ok (some inst)) ∧
      (∀ mod cls e2, u name = some mod → findAppAttr mod = some cls →
        cls.ctor3 = .error .typeError → cls.ctor2 = .error e2 →
        loadApp u name = .ok none) ∧
      (∀ mod cls, u name = some mod → findAppAttr mod = some cls →
        cls.ctor3 = .error .other → loadApp u name = .error .other) := by
  refine ⟨?_, ?_, ?_, ?_, ?_, ?_⟩ <;> intros <;> simp_all [loadApp]

/-- Counterexample to C8 as stated: a non-`TypeError` constructor failure
escapes `load_app` instead of producing `None`. -/
theorem c8_loader_counterexample :
    loadApp badUniverse "network.gps" = .error PyErr.other := by decide

/-- Witness for C8: the well-formed module loads with the 3-argument
constructor. -/
theorem c8_loader_witness :
    loadApp goodUniverse "system.cpu_ram" = .ok (some 7) :=
  (c8_loader goodUniverse "system.cpu_ram").2.2.1
    [{ name := "CpuRamApp", ctor3 := .ok 7, ctor2 := .ok 7 }]
    { name := "CpuRamApp", ctor3 := .ok 7, ctor2 := .ok 7 } 7 rfl (by decide) rfl

end PiGadget
